import Mathlib

/-!
Verification of the Market Price & Profit Intelligence Engine of the Agri-bot
repository.  The TypeScript sources are embedded shallowly over `ℚ`:

* JS `number` arithmetic is idealised as exact rational arithmetic.
* `Math.round` is `jsRound` (round half toward positive infinity, the
  ECMAScript behaviour); `x.toFixed(1)` is `toFixed1`.
* `Math.sqrt` and `Math.cos` are transcendental floating-point functions; the
  embedding abstracts them as explicit function parameters (`sqrtQ`, `cosDeg`)
  so that every statement quantifies over their possible values.
* A thrown JS exception is an `Except.error` tagged `FailMode.thrown`; an
  error value returned without throwing would be tagged `FailMode.returned`.
-/

namespace AgriBot

/-- ECMAScript `Math.round`: round half toward positive infinity. -/
def jsRound (q : ℚ) : ℤ := ⌊q + 1/2⌋

/-- JS `Math.round(x * 10) / 10`: round to 1 decimal place. -/
def round1 (q : ℚ) : ℚ := (jsRound (q * 10) : ℚ) / 10

/-- JS `Math.round(x * 100) / 100`: round to 2 decimal places. -/
def round2 (q : ℚ) : ℚ := (jsRound (q * 100) : ℚ) / 100

/-- ECMAScript `Number.prototype.toFixed(1)`: the integer `n` with `n / 10`
closest to the argument, the larger one on ties, rendered with one digit
after the decimal point. -/
def toFixed1 (q : ℚ) : String :=
  let r := jsRound (q * 10)
  (if r < 0 then "-" else "") ++ toString (r.natAbs / 10) ++ "." ++ toString (r.natAbs % 10)

/-- Confidence labels used by the forecaster and the profit scenarios.
`CERTAIN` appears only on the sell-now scenario. -/
inductive Confidence where
  | CERTAIN
  | HIGH
  | MEDIUM
  | LOW
deriving DecidableEq, Repr

/-- Trend direction labels. -/
inductive Direction where
  | RISING
  | FALLING
  | STABLE
deriving DecidableEq, Repr

/-- The string the source interpolates for a `Direction`. -/
def Direction.str : Direction → String
  | .RISING => "RISING"
  | .FALLING => "FALLING"
  | .STABLE => "STABLE"

/-- Weather risk levels produced by `fetchWeatherRisk` in `mospi-client.ts`. -/
inductive RiskLevel where
  | LOW
  | MEDIUM
  | HIGH
deriving DecidableEq, Repr

/-- The string the source interpolates for a `RiskLevel`. -/
def RiskLevel.str : RiskLevel → String
  | .LOW => "LOW"
  | .MEDIUM => "MEDIUM"
  | .HIGH => "HIGH"

/-- How a failure left the function: as a JS `throw` or as a returned error
value.  The engine-wide propagation policy of the spec concerns exactly this
distinction. -/
inductive FailMode where
  | thrown
  | returned
deriving DecidableEq, Repr

/-- `calculateVariance` from `prediction-algorithm.ts`: population variance of
a list, `0` on the empty list (the source guards `values.length === 0`). -/
def calculateVariance (values : List ℚ) : ℚ :=
  if values.length = 0 then 0
  else
    let mean := values.sum / (values.length : ℚ)
    ((values.map fun v => (v - mean) ^ 2).sum) / (values.length : ℚ)

/-- The spec's words: population variance is the mean of squared deviations
from the mean (stated without the empty-list guard; `ℚ` division by zero makes
it `0` there as well). -/
def populationVariance (values : List ℚ) : ℚ :=
  ((values.map fun v => (v - values.sum / (values.length : ℚ)) ^ 2).sum) / (values.length : ℚ)

/-- Sum of the x-positions `0, 1, ..., n-1` used by the regression. -/
def sumX (n : ℕ) : ℚ := ∑ i in Finset.range n, (i : ℚ)

/-- Sum of the squared x-positions `0, 1, ..., n-1`. -/
def sumX2 (n : ℕ) : ℚ := ∑ i in Finset.range n, (i : ℚ) ^ 2

/-- Sum of the y-values of the series, indexed over the x-positions. -/
def sumY (ys : List ℚ) : ℚ := ∑ i in Finset.range ys.length, ys.getD i 0

/-- Sum of `x·y` over the regression points `(i, ys[i])`. -/
def sumXY (ys : List ℚ) : ℚ := ∑ i in Finset.range ys.length, (i : ℚ) * ys.getD i 0

/-- Modelled from the spec: `regression.linear` of the npm `regression`
package is not part of this repository; per the spec it fits an ordinary
least-squares line over sequential integer x-positions `0..n-1`.  This is the
closed-form least-squares slope. -/
def regressionSlope (ys : List ℚ) : ℚ :=
  let n : ℚ := ys.length
  (n * sumXY ys - sumX ys.length * sumY ys) /
    (n * sumX2 ys.length - sumX ys.length * sumX ys.length)

/-- Modelled from the spec: the least-squares intercept, `ȳ − slope·x̄`. -/
def regressionIntercept (ys : List ℚ) : ℚ :=
  sumY ys / (ys.length : ℚ) - regressionSlope ys * (sumX ys.length / (ys.length : ℚ))

/-- `WPIPrediction` from `prediction-algorithm.ts`. -/
structure WPIPrediction where
  currentWPI : ℚ
  predictedWPI : ℚ
  percentChange : ℚ
  confidence : Confidence
  trendDirection : Direction
  variance : ℚ
deriving DecidableEq, Repr

/-- `predictWPIIndex` from `prediction-algorithm.ts`.  The input series is the
list of `wpi_index` values (the `date` field of `WPIDataPoint` is never read
by the arithmetic).  The guard `historicalWPI.length < 7` throws in the
source, hence the `FailMode.thrown` tag. -/
def predictWPIIndex (historicalWPI : List ℚ) (daysAhead : ℚ) :
    Except (FailMode × String) WPIPrediction :=
  if historicalWPI.length < 7 then
    .error (.thrown, "Need at least 7 days of historical WPI data for prediction")
  else
    let slope := regressionSlope historicalWPI
    let intercept := regressionIntercept historicalWPI
    let currentIndex : ℚ := (historicalWPI.length : ℚ) - 1
    let futureIndex := currentIndex + daysAhead
    let currentWPI := historicalWPI.getD (historicalWPI.length - 1) 0
    let predictedWPI := slope * futureIndex + intercept
    let percentChange := (predictedWPI - currentWPI) / currentWPI * 100
    let variance := calculateVariance historicalWPI
    let confidence : Confidence :=
      if variance < 5 then .HIGH else if variance < 15 then .MEDIUM else .LOW
    let trendDirection : Direction :=
      if percentChange > 1 then .RISING
      else if percentChange < -1 then .FALLING
      else .STABLE
    .ok { currentWPI := currentWPI
          predictedWPI := round1 predictedWPI
          percentChange := round2 percentChange
          confidence := confidence
          trendDirection := trendDirection
          variance := round2 variance }

/-- `applyWPIChangeToPrice` from `prediction-algorithm.ts`. -/
def applyWPIChangeToPrice (currentPrice wpiPercentChange : ℚ) : ℚ :=
  (jsRound (currentPrice * (1 + wpiPercentChange / 100)) : ℚ)

/-- The record returned by `calculateStorageCost`. -/
structure StorageCost where
  totalCost : ℚ
  ratePerQuintalPerWeek : ℚ
  durationWeeks : ℚ
  breakdown : String
deriving DecidableEq, Repr

/-- `calculateStorageCost` from `prediction-algorithm.ts`.  The JS template
string renders the numbers with default number-to-string conversion; the
embedding renders the rate and quantity with `ℚ` `toString` (identical for
the integral values that occur) and the weeks with `toFixed(1)` as the source
does. -/
def calculateStorageCost (crop : String) (days quantityQuintals : ℚ) : StorageCost :=
  let ratePerQuintalPerWeek : ℚ := 50
  let weeks := days / 7
  let totalCost : ℚ := (jsRound (ratePerQuintalPerWeek * weeks * quantityQuintals) : ℚ)
  { totalCost := totalCost
    ratePerQuintalPerWeek := ratePerQuintalPerWeek
    durationWeeks := round1 weeks
    breakdown :=
      "₹" ++ toString ratePerQuintalPerWeek ++ " × " ++ toFixed1 weeks ++ " weeks × "
        ++ toString quantityQuintals ++ " quintals" }

/-- The weather risk value produced by `fetchWeatherRisk` in
`mospi-client.ts` and consumed by the profit planner. -/
structure WeatherRisk where
  rainProbability : ℚ
  riskLevel : RiskLevel
  description : String
deriving DecidableEq, Repr

/-- One profit scenario of `analyze_profit_scenarios` in
`agri-price-prediction/src/index.ts`.  The sell-now object of the source has
no `profit_vs_now` and no `wpi_change_percent` property, hence the `Option`
fields. -/
structure ScenarioResult where
  action : String
  price_per_quintal : ℚ
  revenue : ℚ
  costs : ℚ
  net_profit : ℚ
  profit_vs_now : Option ℚ
  risk : String
  confidence : Confidence
  wpi_change_percent : Option ℚ
deriving DecidableEq, Repr

/-- The result object of `analyze_profit_scenarios` (constant `wpi_source` and
`note` strings omitted). -/
structure PlanResult where
  crop : String
  quantity_quintals : ℚ
  current_market_price : ℚ
  scenarios : List ScenarioResult
  recommendation : String
  weather_forecast : String
deriving DecidableEq, Repr

/-- The `sellNow` scenario object of `analyze_profit_scenarios`. -/
def scenarioSellNow (current_market_price quantity_quintals : ℚ) : ScenarioResult :=
  { action := "Sell immediately at current price"
    price_per_quintal := current_market_price
    revenue := current_market_price * quantity_quintals
    costs := 0
    net_profit := current_market_price * quantity_quintals
    profit_vs_now := none
    risk := "None"
    confidence := .CERTAIN
    wpi_change_percent := none }

/-- The `wait7Days` scenario object of `analyze_profit_scenarios`. -/
def scenarioWait7 (current_market_price quantity_quintals : ℚ)
    (wpi7Day : WPIPrediction) (predicted7DayPrice : ℚ) (storage7Day : StorageCost)
    (weatherRisk : WeatherRisk) : ScenarioResult :=
  { action := "Wait 7 days (WPI forecast: " ++ wpi7Day.trendDirection.str ++ ")"
    price_per_quintal := predicted7DayPrice
    revenue := predicted7DayPrice * quantity_quintals
    costs := storage7Day.totalCost
    net_profit := predicted7DayPrice * quantity_quintals - storage7Day.totalCost
    profit_vs_now :=
      some ((predicted7DayPrice - current_market_price) * quantity_quintals - storage7Day.totalCost)
    risk :=
      if weatherRisk.riskLevel = .LOW then "Low weather risk"
      else weatherRisk.riskLevel.str ++ " weather risk"
    confidence := wpi7Day.confidence
    wpi_change_percent := some wpi7Day.percentChange }

/-- The `wait14Days` scenario object of `analyze_profit_scenarios`. -/
def scenarioWait14 (current_market_price quantity_quintals : ℚ)
    (wpi14Day : WPIPrediction) (predicted14DayPrice : ℚ) (storage14Day : StorageCost)
    (weatherRisk : WeatherRisk) : ScenarioResult :=
  { action := "Wait 14 days (WPI forecast: " ++ wpi14Day.trendDirection.str ++ ")"
    price_per_quintal := predicted14DayPrice
    revenue := predicted14DayPrice * quantity_quintals
    costs := storage14Day.totalCost
    net_profit := predicted14DayPrice * quantity_quintals - storage14Day.totalCost
    profit_vs_now :=
      some ((predicted14DayPrice - current_market_price) * quantity_quintals - storage14Day.totalCost)
    risk := weatherRisk.riskLevel.str ++ " weather risk + longer market uncertainty"
    confidence := wpi14Day.confidence
    wpi_change_percent := some wpi14Day.percentChange }

/-- The scenario list `[sellNow, wait7Days, wait14Days]` that
`analyze_profit_scenarios` builds (the predicted prices and storage costs are
computed exactly as in the handler body). -/
def planScenarios (crop : String) (quantity_quintals current_market_price : ℚ)
    (wpi7Day wpi14Day : WPIPrediction) (weatherRisk : WeatherRisk) : List ScenarioResult :=
  [scenarioSellNow current_market_price quantity_quintals,
   scenarioWait7 current_market_price quantity_quintals wpi7Day
     (applyWPIChangeToPrice current_market_price wpi7Day.percentChange)
     (calculateStorageCost crop 7 quantity_quintals) weatherRisk,
   scenarioWait14 current_market_price quantity_quintals wpi14Day
     (applyWPIChangeToPrice current_market_price wpi14Day.percentChange)
     (calculateStorageCost crop 14 quantity_quintals) weatherRisk]

/-- `Array.prototype.reduce((best, curr) => curr.net_profit > best.net_profit
? curr : best)`: left fold that keeps the earlier element on ties. -/
def reduceBest (b : ScenarioResult) (l : List ScenarioResult) : ScenarioResult :=
  l.foldl (fun best curr => if curr.net_profit > best.net_profit then curr else best) b

/-- The recommendation step of `analyze_profit_scenarios`: drop `LOW`
confidence scenarios, then reduce to the highest net profit (`none` models
the `TypeError` that `reduce` of an empty array would throw). -/
def recommendedOf (scenarios : List ScenarioResult) : Option ScenarioResult :=
  match scenarios.filter fun s => decide (s.confidence ≠ Confidence.LOW) with
  | [] => none
  | b :: rest => some (reduceBest b rest)

/-- The `analyze_profit_scenarios` tool handler of
`agri-price-prediction/src/index.ts`, as a function of its already-fetched
external inputs: the 90-day WPI history and the weather risk.  A thrown
exception from `predictWPIIndex` propagates to the handler's `catch`;
`Array.prototype.reduce` on an empty array would throw a `TypeError`. -/
def analyzeProfitScenarios (crop : String) (quantity_quintals current_market_price : ℚ)
    (historicalWPI : List ℚ) (weatherRisk : WeatherRisk) :
    Except (FailMode × String) PlanResult :=
  match predictWPIIndex historicalWPI 7 with
  | .error e => .error e
  | .ok wpi7Day =>
    match predictWPIIndex historicalWPI 14 with
    | .error e => .error e
    | .ok wpi14Day =>
      let scenarios :=
        planScenarios crop quantity_quintals current_market_price wpi7Day wpi14Day weatherRisk
      match recommendedOf scenarios with
      | none => .error (.thrown, "Reduce of empty array with no initial value")
      | some recommended =>
        .ok { crop := crop
              quantity_quintals := quantity_quintals
              current_market_price := current_market_price
              scenarios := scenarios
              recommendation := recommended.action
              weather_forecast := weatherRisk.description }

/-- Erase the weather-derived text of a scenario (used to state that weather
influences nothing else). -/
def scrubScenarioRisk (s : ScenarioResult) : ScenarioResult :=
  { s with risk := "" }

/-- Erase the weather-derived text of a plan result. -/
def scrubPlan : Except (FailMode × String) PlanResult → Except (FailMode × String) PlanResult
  | .error e => .error e
  | .ok r => .ok { r with scenarios := r.scenarios.map scrubScenarioRisk, weather_forecast := "" }

/-- `msp_status` values of `mandi_price_summary` rows. -/
inductive MspStatus where
  | ABOVE_MSP
  | BELOW_MSP
deriving DecidableEq, Repr

/-- A `mandi_price_summary` row, `MandiPrice` of `agri-market/src/types.ts`. -/
structure MandiPrice where
  mandi_id : String
  mandi_name : String
  district : String
  lat : ℚ
  lon : ℚ
  crop_name : String
  current_price : ℚ
  msp_price : ℚ
  msp_diff : ℚ
  msp_status : MspStatus
deriving DecidableEq, Repr

/-- `MandiPriceWithDistance` of `agri-market/src/types.ts`. -/
structure MandiPriceWithDistance extends MandiPrice where
  distance_km : ℚ
  transport_cost : ℚ
  net_price : ℚ
deriving DecidableEq, Repr

/-- `GetMandiPricesResult` of `agri-market/src/types.ts`. -/
structure GetMandiPricesResult where
  crop : String
  msp : ℚ
  mandis : List MandiPrice
  highest_price : ℚ
  lowest_price : ℚ
  price_spread : ℚ
  spread_percent : ℚ
deriving DecidableEq, Repr

/-- `ComparePricesResult` of `agri-market/src/types.ts`. -/
structure ComparePricesResult where
  crop : String
  farmer_location : ℚ × ℚ
  radius_km : Option ℚ
  mandis : List MandiPriceWithDistance
  best_mandi : MandiPriceWithDistance
  recommendation : String
deriving DecidableEq, Repr

/-- The transport rate of `comparePrices`: `config?.value || 12`.  An absent
row and a falsy (zero) configured value both fall back to `12`; any other
configured value is used as is. -/
def transportRate (config : Option ℚ) : ℚ :=
  match config with
  | some v => if v = 0 then 12 else v
  | none => 12

/-- The `map` body of `comparePrices`: planar distance (degrees scaled by
111 km, longitude additionally by the cosine of the farmer latitude),
transport cost and net price, each stored rounded to 2 decimals.  `cosDeg`
stands for `x ↦ Math.cos(x * Math.PI / 180)` and `sqrtQ` for `Math.sqrt`. -/
def withDistance (transportCostPerKm farmerLat farmerLon : ℚ)
    (cosDeg sqrtQ : ℚ → ℚ) (mandi : MandiPrice) : MandiPriceWithDistance :=
  let latDiff := (mandi.lat - farmerLat) * 111
  let lonDiff := (mandi.lon - farmerLon) * 111 * cosDeg farmerLat
  let distance_km := sqrtQ (latDiff * latDiff + lonDiff * lonDiff)
  let transport_cost := distance_km * transportCostPerKm
  let net_price := mandi.current_price - transport_cost
  { toMandiPrice := mandi
    distance_km := round2 distance_km
    transport_cost := round2 transport_cost
    net_price := round2 net_price }

/-- Insert an element into a list sorted descending by `key`, before the
first element whose key is not greater — the position a stable descending
sort gives it. -/
def insertDescBy (key : α → ℚ) (x : α) : List α → List α
  | [] => [x]
  | y :: l => if key y ≤ key x then x :: y :: l else y :: insertDescBy key x l

/-- Stable sort, descending by `key`: the behaviour ECMAScript mandates for
`Array.prototype.sort` with comparator `(a, b) => key b - key a` (stable
since ES2019). -/
def sortDescBy (key : α → ℚ) : List α → List α
  | [] => []
  | x :: l => insertDescBy key x (sortDescBy key l)

/-- The radius filter of `comparePrices`: applied to the rounded
`distance_km` field, all pass when no radius is supplied. -/
def radiusPred (radiusKm : Option ℚ) (m : MandiPriceWithDistance) : Bool :=
  match radiusKm with
  | some r => decide (m.distance_km ≤ r)
  | none => true

/-- `comparePrices` from `agri-market/src/queries.ts`, as a function of the
already-fetched database rows: the `market_config` transport rate (if the row
exists), the crop MSP (if the row exists) and the `mandi_price_summary` rows
for the crop, in table order.  Number-to-string rendering inside the
recommendation uses `ℚ` `toString`. -/
def comparePrices (config : Option ℚ) (cropMsp : Option ℚ) (mandis : List MandiPrice)
    (cropName : String) (farmerLat farmerLon : ℚ) (radiusKm : Option ℚ)
    (cosDeg sqrtQ : ℚ → ℚ) : Option ComparePricesResult :=
  let transportCostPerKm := transportRate config
  match cropMsp with
  | none => none
  | some msp =>
    if mandis.length = 0 then none
    else
      let mandisWithDistance :=
        sortDescBy (fun m => m.net_price)
          ((mandis.map (withDistance transportCostPerKm farmerLat farmerLon cosDeg sqrtQ)).filter
            (radiusPred radiusKm))
      match mandisWithDistance with
      | [] => none
      | best_mandi :: rest =>
        let recommendation :=
          if best_mandi.net_price ≥ msp then
            "Sell at " ++ best_mandi.mandi_name ++ " for best net return of Rs "
              ++ toString best_mandi.net_price ++ "/qtl (after transport cost of Rs "
              ++ toString best_mandi.transport_cost ++ ")."
          else
            "Warning: Best net price (Rs " ++ toString best_mandi.net_price ++ "/qtl at "
              ++ best_mandi.mandi_name ++ ") is below MSP (Rs " ++ toString msp
              ++ "/qtl). Consider claiming MSP support through government procurement."
        some { crop := cropName
               farmer_location := (farmerLat, farmerLon)
               radius_km := match radiusKm with
                            | some r => if r = 0 then none else some r
                            | none => none
               mandis := best_mandi :: rest
               best_mandi := best_mandi
               recommendation := recommendation }

/-- `getMandiPrices` from `agri-market/src/queries.ts`.  The SQL
`ORDER BY current_price DESC` is modelled by sorting the rows descending by
`current_price` (SQLite order on ties is the table scan order, i.e. the row
order of the input list). -/
def getMandiPrices (cropMsp : Option ℚ) (rows : List MandiPrice) (cropName : String) :
    Option GetMandiPricesResult :=
  match cropMsp with
  | none => none
  | some msp =>
    match sortDescBy (fun m => m.current_price) rows with
    | [] => none
    | first :: rest =>
      let mandis := first :: rest
      let highest_price := first.current_price
      let lowest_price := (mandis.getLast (List.cons_ne_nil _ _)).current_price
      let price_spread := highest_price - lowest_price
      let spread_percent := price_spread / lowest_price * 100
      some { crop := cropName
             msp := msp
             mandis := mandis
             highest_price := highest_price
             lowest_price := lowest_price
             price_spread := price_spread
             spread_percent := round2 spread_percent }

/-- `PriceTrend` of `agri-market/src/types.ts`. -/
structure PriceTrend where
  mandi_id : String
  mandi_name : String
  crop_name : String
  prices_7day : List ℚ
  first_price : ℚ
  last_price : ℚ
  change_percent : ℚ
  direction : Direction
  recommendation : String
deriving DecidableEq, Repr

/-- `getPriceTrend` from `agri-market/src/queries.ts`, as a function of the
already-fetched rows: the mandi name (if the `mandis` row exists) and the
`price_trends` prices ordered by `day_offset` ascending. -/
def getPriceTrend (cropName mandiId : String) (mandiName : Option String)
    (trends : List ℚ) : Option PriceTrend :=
  match mandiName with
  | none => none
  | some name =>
    match trends with
    | [] => none
    | first_price :: more =>
      let prices_7day := first_price :: more
      let last_price := prices_7day.getLast (List.cons_ne_nil _ _)
      let change := last_price - first_price
      let change_percent := change / first_price * 100
      let direction : Direction :=
        if |change_percent| < 1 then .STABLE
        else if change_percent > 0 then .RISING
        else .FALLING
      let recommendation :=
        if direction = .STABLE then
          "Prices stable at " ++ name ++ " (" ++ toFixed1 |change_percent|
            ++ "% change). No urgency to sell."
        else if direction = .RISING then
          "Prices rising at " ++ name ++ " (+" ++ toFixed1 change_percent
            ++ "%). Consider waiting 2-3 days for better rates."
        else
          "Prices falling at " ++ name ++ " (" ++ toFixed1 change_percent
            ++ "%). Sell immediately to avoid further loss."
      some { mandi_id := mandiId
             mandi_name := name
             crop_name := cropName
             prices_7day := prices_7day
             first_price := first_price
             last_price := last_price
             change_percent := round2 change_percent
             direction := direction
             recommendation := recommendation }

/-! ### Regression lemmas -/

lemma sumX_closed (n : ℕ) : sumX n = (n : ℚ) * ((n : ℚ) - 1) / 2 := by
  induction n with
  | zero => simp [sumX]
  | succ n ih =>
    rw [sumX, Finset.sum_range_succ, ← sumX, ih]
    push_cast
    ring

lemma sumX2_closed (n : ℕ) : sumX2 n = (n : ℚ) * ((n : ℚ) - 1) * (2 * (n : ℚ) - 1) / 6 := by
  induction n with
  | zero => simp [sumX2]
  | succ n ih =>
    rw [sumX2, Finset.sum_range_succ, ← sumX2, ih]
    push_cast
    ring

lemma regDet_ne (n : ℕ) (h : 2 ≤ n) :
    (n : ℚ) * sumX2 n - sumX n * sumX n ≠ 0 := by
  have h2 : (2 : ℚ) ≤ (n : ℚ) := by exact_mod_cast h
  have hfact : (n : ℚ) * sumX2 n - sumX n * sumX n
      = (n : ℚ) ^ 2 * ((n : ℚ) - 1) * ((n : ℚ) + 1) / 12 := by
    rw [sumX_closed, sumX2_closed]
    ring
  rw [hfact]
  have h0 : (0 : ℚ) < (n : ℚ) := by linarith
  have h1 : (0 : ℚ) < (n : ℚ) - 1 := by linarith
  have h3 : (0 : ℚ) < (n : ℚ) + 1 := by linarith
  have : (0 : ℚ) < (n : ℚ) ^ 2 * ((n : ℚ) - 1) * ((n : ℚ) + 1) / 12 := by positivity
  exact ne_of_gt this

/-- The closed-form slope and intercept satisfy the least-squares normal
equations: the residuals sum to zero and are uncorrelated with x. -/
lemma regression_normalEq (ys : List ℚ) (h : 2 ≤ ys.length) :
    regressionSlope ys * sumX ys.length + regressionIntercept ys * (ys.length : ℚ) = sumY ys
    ∧ regressionSlope ys * sumX2 ys.length + regressionIntercept ys * sumX ys.length
        = sumXY ys := by
  have hn : ((ys.length : ℚ)) ≠ 0 := by
    have : (2 : ℚ) ≤ (ys.length : ℚ) := by exact_mod_cast h
    linarith
  have hD := regDet_ne ys.length h
  unfold regressionIntercept regressionSlope
  constructor
  · field_simp
    ring
  · field_simp
    ring


/-- On a series of at least 7 points `predictWPIIndex` takes its success
branch, and the returned record is the one built from the regression line,
the last observation and the variance. -/
lemma predictWPIIndex_ok (hist : List ℚ) (d : ℚ) (h : ¬ hist.length < 7) :
    predictWPIIndex hist d = .ok
      { currentWPI := hist.getD (hist.length - 1) 0
        predictedWPI :=
          round1 (regressionSlope hist * ((hist.length : ℚ) - 1 + d) + regressionIntercept hist)
        percentChange :=
          round2 ((regressionSlope hist * ((hist.length : ℚ) - 1 + d) + regressionIntercept hist
            - hist.getD (hist.length - 1) 0) / hist.getD (hist.length - 1) 0 * 100)
        confidence :=
          if calculateVariance hist < 5 then .HIGH
          else if calculateVariance hist < 15 then .MEDIUM else .LOW
        trendDirection :=
          if (regressionSlope hist * ((hist.length : ℚ) - 1 + d) + regressionIntercept hist
              - hist.getD (hist.length - 1) 0) / hist.getD (hist.length - 1) 0 * 100 > 1 then
            .RISING
          else if (regressionSlope hist * ((hist.length : ℚ) - 1 + d) + regressionIntercept hist
              - hist.getD (hist.length - 1) 0) / hist.getD (hist.length - 1) 0 * 100 < -1 then
            .FALLING
          else .STABLE
        variance := round2 (calculateVariance hist) } := by
  simp only [predictWPIIndex, if_neg h]

lemma calculateVariance_eq_population (values : List ℚ) (h : values.length ≠ 0) :
    calculateVariance values = populationVariance values := by
  simp [calculateVariance, populationVariance, h]

/-- C2: for every series of at least 7 points the fitted line is the ordinary
least-squares line over sequential integer x-positions `0..n-1` (its
residuals satisfy both normal equations), `current_value` is the last
observed y, `predicted_value = slope·(n−1+days_ahead)+intercept` rounded to
1 decimal, and `percent_change = (predicted − current)/current × 100` rounded
to 2 decimals. -/
theorem forecast_ols_arithmetic (hist : List ℚ) (d : ℚ) (res : WPIPrediction)
    (hlen : 7 ≤ hist.length) (heq : predictWPIIndex hist d = .ok res) :
    (∑ i in Finset.range hist.length,
      (hist.getD i 0 - (regressionSlope hist * i + regressionIntercept hist)) = 0)
    ∧ (∑ i in Finset.range hist.length,
      (i : ℚ) * (hist.getD i 0 - (regressionSlope hist * i + regressionIntercept hist)) = 0)
    ∧ res.currentWPI = hist.getD (hist.length - 1) 0
    ∧ res.predictedWPI =
        round1 (regressionSlope hist * ((hist.length : ℚ) - 1 + d) + regressionIntercept hist)
    ∧ res.percentChange =
        round2 (((regressionSlope hist * ((hist.length : ℚ) - 1 + d) + regressionIntercept hist)
          - res.currentWPI) / res.currentWPI * 100) := by
  have h7 : ¬ hist.length < 7 := by omega
  rw [predictWPIIndex_ok hist d h7] at heq
  simp only [Except.ok.injEq] at heq
  obtain ⟨hN1, hN2⟩ := regression_normalEq hist (by omega)
  refine ⟨?_, ?_, ?_, ?_, ?_⟩
  · have e1 : ∑ i in Finset.range hist.length,
        (hist.getD i 0 - (regressionSlope hist * i + regressionIntercept hist))
        = sumY hist - (regressionSlope hist * sumX hist.length
            + regressionIntercept hist * (hist.length : ℚ)) := by
      rw [Finset.sum_sub_distrib, Finset.sum_add_distrib, ← Finset.mul_sum, Finset.sum_const,
        nsmul_eq_mul, Finset.card_range]
      unfold sumY sumX
      ring
    rw [e1, hN1]
    ring
  · have e2 : ∑ i in Finset.range hist.length,
        (i : ℚ) * (hist.getD i 0 - (regressionSlope hist * i + regressionIntercept hist))
        = sumXY hist - (regressionSlope hist * sumX2 hist.length
            + regressionIntercept hist * sumX hist.length) := by
      have : ∀ i ∈ Finset.range hist.length,
          (i : ℚ) * (hist.getD i 0 - (regressionSlope hist * i + regressionIntercept hist))
          = (i : ℚ) * hist.getD i 0 - (regressionSlope hist * (i : ℚ) ^ 2
              + regressionIntercept hist * (i : ℚ)) := by
        intro i _
        ring
      rw [Finset.sum_congr rfl this, Finset.sum_sub_distrib, Finset.sum_add_distrib,
        ← Finset.mul_sum, ← Finset.mul_sum]
      unfold sumXY sumX2 sumX
      ring
    rw [e2, hN2]
    ring
  · rw [← heq]
  · rw [← heq]
  · rw [← heq]

/-- Flat 7-point series used as a concrete evaluation point. -/
def histFlat : List ℚ := [100, 100, 100, 100, 100, 100, 100]

/-- The forecaster's output on `histFlat` at 7 days ahead. -/
def predFlat : WPIPrediction :=
  { currentWPI := 100
    predictedWPI := 100
    percentChange := 0
    confidence := .HIGH
    trendDirection := .STABLE
    variance := 0 }

lemma regressionSlope_histFlat : regressionSlope histFlat = 0 := by
  unfold regressionSlope
  norm_num [sumXY, sumX, sumX2, sumY, histFlat, Finset.sum_range_succ]

lemma regressionIntercept_histFlat : regressionIntercept histFlat = 100 := by
  unfold regressionIntercept
  rw [regressionSlope_histFlat]
  norm_num [sumY, sumX, histFlat, Finset.sum_range_succ]

lemma predictWPIIndex_histFlat : predictWPIIndex histFlat 7 = .ok predFlat := by
  rw [predictWPIIndex_ok histFlat 7 (by decide)]
  simp only [Except.ok.injEq, regressionSlope_histFlat, regressionIntercept_histFlat]
  norm_num [histFlat, predFlat, calculateVariance, round1, round2, jsRound]

/-- Evaluation of C2 at a concrete series. -/
theorem forecast_ols_arithmetic_witness :
    7 ≤ histFlat.length
    ∧ ((∑ i in Finset.range histFlat.length,
        (histFlat.getD i 0 - (regressionSlope histFlat * i + regressionIntercept histFlat)) = 0)
      ∧ (∑ i in Finset.range histFlat.length,
        (i : ℚ) * (histFlat.getD i 0
          - (regressionSlope histFlat * i + regressionIntercept histFlat)) = 0)
      ∧ predFlat.currentWPI = histFlat.getD (histFlat.length - 1) 0
      ∧ predFlat.predictedWPI = round1 (regressionSlope histFlat
          * ((histFlat.length : ℚ) - 1 + 7) + regressionIntercept histFlat)
      ∧ predFlat.percentChange = round2 (((regressionSlope histFlat
          * ((histFlat.length : ℚ) - 1 + 7) + regressionIntercept histFlat)
          - predFlat.currentWPI) / predFlat.currentWPI * 100)) :=
  ⟨by decide, forecast_ols_arithmetic histFlat 7 predFlat (by decide) predictWPIIndex_histFlat⟩

/-- C3: the forecaster's reported variance is the population variance of the
observations rounded to 2 decimals, and the confidence label is banded on the
(unrounded) population variance: HIGH below 5, MEDIUM in [5, 15), LOW at 15
or above. -/
theorem forecast_confidence_banding (hist : List ℚ) (d : ℚ) (res : WPIPrediction)
    (heq : predictWPIIndex hist d = .ok res) :
    res.variance = round2 (populationVariance hist)
    ∧ (populationVariance hist < 5 → res.confidence = .HIGH)
    ∧ (5 ≤ populationVariance hist → populationVariance hist < 15 → res.confidence = .MEDIUM)
    ∧ (15 ≤ populationVariance hist → res.confidence = .LOW) := by
  have h7 : ¬ hist.length < 7 := by
    intro h
    simp [predictWPIIndex, h] at heq
  have hne : hist.length ≠ 0 := by omega
  have hvar := calculateVariance_eq_population hist hne
  rw [predictWPIIndex_ok hist d h7] at heq
  simp only [Except.ok.injEq] at heq
  rw [← heq]
  rw [hvar]
  refine ⟨rfl, ?_, ?_, ?_⟩
  · intro h
    simp [if_pos h]
  · intro h5 h15
    rw [if_neg (by linarith), if_pos h15]
  · intro h
    rw [if_neg (by linarith), if_neg (by linarith)]

/-- High-variance 7-point series (population variance 54). -/
def histVar : List ℚ := [100, 100, 100, 100, 100, 100, 121]

/-- The forecaster's output on `histVar` at 7 days ahead. -/
def predVar : WPIPrediction :=
  { currentWPI := 121
    predictedWPI := 251 / 2
    percentChange := 93 / 25
    confidence := .LOW
    trendDirection := .RISING
    variance := 54 }

lemma regressionSlope_histVar : regressionSlope histVar = 9 / 4 := by
  unfold regressionSlope
  norm_num [sumXY, sumX, sumX2, sumY, histVar, Finset.sum_range_succ]

lemma regressionIntercept_histVar : regressionIntercept histVar = 385 / 4 := by
  unfold regressionIntercept
  rw [regressionSlope_histVar]
  norm_num [sumY, sumX, histVar, Finset.sum_range_succ]

lemma predictWPIIndex_histVar : predictWPIIndex histVar 7 = .ok predVar := by
  rw [predictWPIIndex_ok histVar 7 (by decide)]
  simp only [Except.ok.injEq, regressionSlope_histVar, regressionIntercept_histVar]
  norm_num [histVar, predVar, calculateVariance, round1, round2, jsRound]

/-- Evaluation of C3 at a concrete high-variance series: confidence LOW. -/
theorem forecast_confidence_banding_witness :
    (15 : ℚ) ≤ populationVariance histVar ∧ predVar.confidence = Confidence.LOW := by
  have h15 : (15 : ℚ) ≤ populationVariance histVar := by
    norm_num [populationVariance, histVar]
  exact ⟨h15,
    (forecast_confidence_banding histVar 7 predVar predictWPIIndex_histVar).2.2.2 h15⟩

/-- C6 counterexample: on fewer than 7 points the forecaster raises its
failure by *throwing* (`throw new Error(...)` in the source, the
`FailMode.thrown` tag here), not by returning an explicit error value — the
claim's propagation-policy half is false at the empty series. -/
theorem forecaster_error_is_thrown_counterexample :
    predictWPIIndex [] 7
      = .error (FailMode.thrown, "Need at least 7 days of historical WPI data for prediction")
    ∧ FailMode.thrown ≠ FailMode.returned := by
  exact ⟨rfl, by decide⟩

/-- C6 amended: the forecaster fails exactly when fewer than 7 points are
supplied, every failure is a thrown exception (caught and converted to an
error payload by the calling tool handler, not returned by the forecaster
itself), and with 7 or more points it succeeds with a prediction. -/
theorem forecaster_insufficient_data_amended (hist : List ℚ) (d : ℚ) :
    ((∃ msg, predictWPIIndex hist d = .error (FailMode.thrown, msg)) ↔ hist.length < 7)
    ∧ (∀ e, predictWPIIndex hist d = .error e → e.1 = FailMode.thrown)
    ∧ (7 ≤ hist.length → ∃ res, predictWPIIndex hist d = .ok res) := by
  by_cases h : hist.length < 7
  · refine ⟨⟨fun _ => h,
      fun _ => ⟨("Need at least 7 days of historical WPI data for prediction"),
        by simp [predictWPIIndex, h]⟩⟩, ?_, ?_⟩
    · intro e he
      simp only [predictWPIIndex, if_pos h, Except.error.injEq] at he
      rw [← he]
    · intro h7
      omega
  · have hok := predictWPIIndex_ok hist d h
    refine ⟨⟨?_, fun hlt => absurd hlt h⟩, ?_, fun _ => ⟨_, hok⟩⟩
    · rintro ⟨msg, hmsg⟩
      rw [hok] at hmsg
      exact absurd hmsg (by simp)
    · intro e he
      rw [hok] at he
      exact absurd he (by simp)

/-- Evaluation of the amended C6 at a concrete 7-point series: success. -/
theorem forecaster_insufficient_data_amended_witness :
    7 ≤ histFlat.length ∧ ∃ res, predictWPIIndex histFlat 7 = .ok res :=
  ⟨by decide, (forecaster_insufficient_data_amended histFlat 7).2.2 (by decide)⟩

/-- The `reduce` of the source is a stable max-reduction: it returns an
element of the list that is at least every element, and everything strictly
before it in the list is strictly smaller — the first-encountered maximum. -/
lemma reduceBest_spec (l : List ScenarioResult) : ∀ b : ScenarioResult,
    ∃ l1 l2, b :: l = l1 ++ reduceBest b l :: l2
      ∧ (∀ s ∈ l1, s.net_profit < (reduceBest b l).net_profit)
      ∧ (∀ s ∈ b :: l, s.net_profit ≤ (reduceBest b l).net_profit) := by
  induction l with
  | nil =>
    intro b
    exact ⟨[], [], rfl, by simp, by simp [reduceBest]⟩
  | cons c t ih =>
    intro b
    by_cases hc : c.net_profit > b.net_profit
    · have hred : reduceBest b (c :: t) = reduceBest c t := by
        simp [reduceBest, List.foldl_cons, if_pos hc]
      obtain ⟨l1, l2, hdec, hlt, hub⟩ := ih c
      rw [hred]
      have hcr : c.net_profit ≤ (reduceBest c t).net_profit :=
        hub c (List.mem_cons_self c t)
      refine ⟨b :: l1, l2, ?_, ?_, ?_⟩
      · rw [List.cons_append, ← hdec]
      · intro s hs
        rcases List.mem_cons.mp hs with h | h
        · rw [h]; exact lt_of_lt_of_le hc hcr
        · exact hlt s h
      · intro s hs
        rcases List.mem_cons.mp hs with h | h
        · rw [h]; exact le_of_lt (lt_of_lt_of_le hc hcr)
        · exact hub s h
    · have hred : reduceBest b (c :: t) = reduceBest b t := by
        simp [reduceBest, List.foldl_cons, if_neg hc]
      have hcb : c.net_profit ≤ b.net_profit := le_of_not_lt hc
      obtain ⟨l1, l2, hdec, hlt, hub⟩ := ih b
      rw [hred]
      cases l1 with
      | nil =>
        simp only [List.nil_append] at hdec
        have hb : b = reduceBest b t := (List.cons.injEq _ _ _ _ ▸ hdec).1
        refine ⟨[], c :: t, ?_, by simp, ?_⟩
        · simp [← hb]
        · intro s hs
          rcases List.mem_cons.mp hs with h | h
          · rw [h, ← hb]
          · rcases List.mem_cons.mp h with h2 | h2
            · rw [h2, ← hb]; exact hcb
            · exact hub s (List.mem_cons_of_mem b h2)
      | cons x l1' =>
        rw [List.cons_append] at hdec
        injection hdec with h1 h2
        have hbr : b.net_profit < (reduceBest b t).net_profit := by
          have hx := hlt x (List.mem_cons_self x l1')
          rwa [← h1] at hx
        refine ⟨b :: c :: l1', l2, ?_, ?_, ?_⟩
        · rw [List.cons_append, List.cons_append, ← h2]
        · intro s hs
          rcases List.mem_cons.mp hs with h | h
          · rw [h]; exact hbr
          · rcases List.mem_cons.mp h with h3 | h3
            · rw [h3]; exact lt_of_le_of_lt hcb hbr
            · exact hlt s (List.mem_cons_of_mem x h3)
        · intro s hs
          rcases List.mem_cons.mp hs with h | h
          · rw [h]; exact le_of_lt hbr
          · rcases List.mem_cons.mp h with h3 | h3
            · rw [h3]; exact le_of_lt (lt_of_le_of_lt hcb hbr)
            · exact hub s (List.mem_cons_of_mem b h3)

/-- On any list beginning with a non-LOW scenario, `recommendedOf` succeeds
with the stable max-reduction of the viable scenarios. -/
lemma recommendedOf_cons (s0 : ScenarioResult) (t : List ScenarioResult)
    (h0 : s0.confidence ≠ Confidence.LOW) :
    recommendedOf (s0 :: t)
      = some (reduceBest s0 (t.filter fun s => decide (s.confidence ≠ Confidence.LOW))) := by
  unfold recommendedOf
  rw [List.filter_cons_of_pos (by simpa using h0)]

/-- Elimination form of a successful `analyzeProfitScenarios` call: both
forecasts succeeded and the result record is the one built from them. -/
lemma analyzeProfitScenarios_ok_elim (crop : String) (qty price : ℚ) (hist : List ℚ)
    (w : WeatherRisk) (res : PlanResult)
    (heq : analyzeProfitScenarios crop qty price hist w = .ok res) :
    ∃ wpi7 wpi14, predictWPIIndex hist 7 = .ok wpi7 ∧ predictWPIIndex hist 14 = .ok wpi14
      ∧ res = { crop := crop
                quantity_quintals := qty
                current_market_price := price
                scenarios := planScenarios crop qty price wpi7 wpi14 w
                recommendation := (reduceBest (scenarioSellNow price qty)
                  ((planScenarios crop qty price wpi7 wpi14 w).tail.filter
                    fun s => decide (s.confidence ≠ Confidence.LOW))).action
                weather_forecast := w.description } := by
  rcases hp7 : predictWPIIndex hist 7 with e | wpi7
  · rw [analyzeProfitScenarios, hp7] at heq
    exact absurd heq (by simp)
  rcases hp14 : predictWPIIndex hist 14 with e | wpi14
  · rw [analyzeProfitScenarios, hp7, hp14] at heq
    exact absurd heq (by simp)
  refine ⟨wpi7, wpi14, rfl, rfl, ?_⟩
  rw [analyzeProfitScenarios, hp7, hp14] at heq
  have hrec := recommendedOf_cons (scenarioSellNow price qty)
    ((planScenarios crop qty price wpi7 wpi14 w).tail) (by simp [scenarioSellNow])
  have hplan : planScenarios crop qty price wpi7 wpi14 w
      = scenarioSellNow price qty :: (planScenarios crop qty price wpi7 wpi14 w).tail := rfl
  rw [← hplan] at hrec
  simp only [hrec, Except.ok.injEq] at heq
  exact heq.symm

/-- C1: every successful planning call builds the scenario list
[sell_now, wait_7, wait_14]; after discarding LOW-confidence scenarios the
list still contains sell_now (whose confidence is CERTAIN); the recommended
scenario is the first-encountered maximum of net_profit over the remaining
scenarios in list order (everything strictly before it is strictly smaller,
nothing exceeds it); hence its confidence is CERTAIN, MEDIUM or HIGH — never
LOW. -/
theorem profit_recommendation_selection (crop : String) (qty price : ℚ) (hist : List ℚ)
    (w : WeatherRisk) (res : PlanResult)
    (heq : analyzeProfitScenarios crop qty price hist w = .ok res) :
    ∃ s0 s7 s14 viable r,
      res.scenarios = [s0, s7, s14]
      ∧ s0.confidence = Confidence.CERTAIN
      ∧ viable = res.scenarios.filter (fun s => decide (s.confidence ≠ Confidence.LOW))
      ∧ s0 ∈ viable
      ∧ r ∈ viable
      ∧ (∀ s ∈ viable, s.net_profit ≤ r.net_profit)
      ∧ (∃ l1 l2, viable = l1 ++ r :: l2 ∧ ∀ s ∈ l1, s.net_profit < r.net_profit)
      ∧ res.recommendation = r.action
      ∧ (r.confidence = Confidence.CERTAIN ∨ r.confidence = Confidence.MEDIUM
          ∨ r.confidence = Confidence.HIGH) := by
  obtain ⟨wpi7, wpi14, hp7, hp14, hres⟩ :=
    analyzeProfitScenarios_ok_elim crop qty price hist w res heq
  subst hres
  set p : ScenarioResult → Bool := fun s => decide (s.confidence ≠ Confidence.LOW) with hp
  set s0 := scenarioSellNow price qty with hs0
  set tl := (planScenarios crop qty price wpi7 wpi14 w).tail with htl
  set r := reduceBest s0 (tl.filter p) with hr
  have hviable : (planScenarios crop qty price wpi7 wpi14 w).filter p = s0 :: tl.filter p := by
    rw [show planScenarios crop qty price wpi7 wpi14 w = s0 :: tl from rfl]
    exact List.filter_cons_of_pos (by simp [hs0, scenarioSellNow, hp])
  obtain ⟨l1, l2, hdec, hlt, hub⟩ := reduceBest_spec (tl.filter p) s0
  rw [← hr] at hdec hlt hub
  refine ⟨s0, _, _, (planScenarios crop qty price wpi7 wpi14 w).filter p, r,
    rfl, rfl, rfl, ?_, ?_, ?_, ?_, rfl, ?_⟩
  · rw [hviable]
    exact List.mem_cons_self _ _
  · rw [hviable, hdec]
    exact List.mem_append_right l1 (List.mem_cons_self _ _)
  · intro s hs
    rw [hviable] at hs
    exact hub s hs
  · exact ⟨l1, l2, by rw [hviable, hdec], hlt⟩
  · have hrmem : r ∈ (planScenarios crop qty price wpi7 wpi14 w).filter p := by
      rw [hviable, hdec]
      exact List.mem_append_right l1 (List.mem_cons_self _ _)
    have := List.of_mem_filter hrmem
    have hrne : r.confidence ≠ Confidence.LOW := by simpa [hp] using this
    cases hc : r.confidence with
    | CERTAIN => exact Or.inl rfl
    | MEDIUM => exact Or.inr (Or.inl rfl)
    | HIGH => exact Or.inr (Or.inr rfl)
    | LOW => exact absurd hc hrne

/-- Introduction form of a successful `analyzeProfitScenarios` call. -/
lemma analyzeProfitScenarios_ok_intro (crop : String) (qty price : ℚ) (hist : List ℚ)
    (w : WeatherRisk) (wpi7 wpi14 : WPIPrediction)
    (hp7 : predictWPIIndex hist 7 = .ok wpi7) (hp14 : predictWPIIndex hist 14 = .ok wpi14) :
    analyzeProfitScenarios crop qty price hist w = .ok
      { crop := crop
        quantity_quintals := qty
        current_market_price := price
        scenarios := planScenarios crop qty price wpi7 wpi14 w
        recommendation := (reduceBest (scenarioSellNow price qty)
          ((planScenarios crop qty price wpi7 wpi14 w).tail.filter
            fun s => decide (s.confidence ≠ Confidence.LOW))).action
        weather_forecast := w.description } := by
  rw [analyzeProfitScenarios, hp7, hp14]
  have hrec := recommendedOf_cons (scenarioSellNow price qty)
    ((planScenarios crop qty price wpi7 wpi14 w).tail) (by simp [scenarioSellNow])
  have hplan : planScenarios crop qty price wpi7 wpi14 w
      = scenarioSellNow price qty :: (planScenarios crop qty price wpi7 wpi14 w).tail := rfl
  rw [← hplan] at hrec
  simp only [hrec]

lemma predictWPIIndex_histFlat14 : predictWPIIndex histFlat 14 = .ok predFlat := by
  rw [predictWPIIndex_ok histFlat 14 (by decide)]
  simp only [Except.ok.injEq, regressionSlope_histFlat, regressionIntercept_histFlat]
  norm_num [histFlat, predFlat, calculateVariance, round1, round2, jsRound]

/-- A concrete low-risk weather input. -/
def w0 : WeatherRisk :=
  { rainProbability := 10
    riskLevel := .LOW
    description := "Favorable weather conditions" }

/-- Evaluation of C1 at a concrete planning call. -/
theorem profit_recommendation_selection_witness :
    ∃ res, analyzeProfitScenarios ("wheat") 10 3200 histFlat w0 = .ok res
      ∧ ∃ s0 s7 s14 viable r,
          res.scenarios = [s0, s7, s14]
          ∧ s0.confidence = Confidence.CERTAIN
          ∧ viable = res.scenarios.filter (fun s => decide (s.confidence ≠ Confidence.LOW))
          ∧ s0 ∈ viable
          ∧ r ∈ viable
          ∧ (∀ s ∈ viable, s.net_profit ≤ r.net_profit)
          ∧ (∃ l1 l2, viable = l1 ++ r :: l2 ∧ ∀ s ∈ l1, s.net_profit < r.net_profit)
          ∧ res.recommendation = r.action
          ∧ (r.confidence = Confidence.CERTAIN ∨ r.confidence = Confidence.MEDIUM
              ∨ r.confidence = Confidence.HIGH) := by
  have hok := analyzeProfitScenarios_ok_intro ("wheat") 10 3200 histFlat w0 predFlat predFlat
    predictWPIIndex_histFlat predictWPIIndex_histFlat14
  exact ⟨_, hok, profit_recommendation_selection ("wheat") 10 3200 histFlat w0 _ hok⟩

/-- C7 counterexample: the engine does not reject negative inputs — the
storage-cost operation returns the numeric answer −500 for quantity −10, and
the profit-scenario operation succeeds for a negative quantity instead of
failing with INVALID_INPUT. -/
theorem no_input_validation_counterexample :
    (calculateStorageCost ("wheat") 7 (-10)).totalCost = -500
    ∧ ∃ res, analyzeProfitScenarios ("wheat") (-10) 3200 histFlat w0 = .ok res := by
  refine ⟨?_, ⟨_, analyzeProfitScenarios_ok_intro ("wheat") (-10) 3200 histFlat w0
    predFlat predFlat predictWPIIndex_histFlat predictWPIIndex_histFlat14⟩⟩
  norm_num [calculateStorageCost, jsRound]

/-- C7 amended: the engine performs no input validation.  The storage-cost
operation computes `round(50 · days/7 · quantity)` for every input, negative
ones included, and the profit-scenario operation returns a numeric result for
every quantity and price whenever at least 7 history points are supplied. -/
theorem no_input_validation_amended :
    (∀ crop days qty, (calculateStorageCost crop days qty).totalCost
      = (jsRound (50 * (days / 7) * qty) : ℚ))
    ∧ ∀ crop qty price hist w, 7 ≤ hist.length →
        ∃ res, analyzeProfitScenarios crop qty price hist w = .ok res := by
  constructor
  · intro crop days qty
    rfl
  · intro crop qty price hist w h7
    have hp7 := predictWPIIndex_ok hist 7 (by omega)
    have hp14 := predictWPIIndex_ok hist 14 (by omega)
    exact ⟨_, analyzeProfitScenarios_ok_intro crop qty price hist w _ _ hp7 hp14⟩

/-- Evaluation of the amended C7 at a negative quantity. -/
theorem no_input_validation_amended_witness :
    7 ≤ histFlat.length
    ∧ ∃ res, analyzeProfitScenarios ("rice") (-5) 2000 histFlat w0 = .ok res :=
  ⟨by decide, no_input_validation_amended.2 ("rice") (-5) 2000 histFlat w0 (by decide)⟩

/-! ### Weather-risk noninterference machinery: scenarios related by
"equal after erasing the risk text" have equal confidences, net profits and
actions, and every stage of the recommendation pipeline preserves the
relation. -/

lemma scrub_eq_confidence {s t : ScenarioResult}
    (h : scrubScenarioRisk s = scrubScenarioRisk t) : s.confidence = t.confidence := by
  have hc : (scrubScenarioRisk s).confidence = (scrubScenarioRisk t).confidence := by rw [h]
  simpa [scrubScenarioRisk] using hc

lemma scrub_eq_net_profit {s t : ScenarioResult}
    (h : scrubScenarioRisk s = scrubScenarioRisk t) : s.net_profit = t.net_profit := by
  have hc : (scrubScenarioRisk s).net_profit = (scrubScenarioRisk t).net_profit := by rw [h]
  simpa [scrubScenarioRisk] using hc

lemma scrub_eq_action {s t : ScenarioResult}
    (h : scrubScenarioRisk s = scrubScenarioRisk t) : s.action = t.action := by
  have hc : (scrubScenarioRisk s).action = (scrubScenarioRisk t).action := by rw [h]
  simpa [scrubScenarioRisk] using hc

lemma filter_scrub_rel {l1 l2 : List ScenarioResult}
    (h : List.Forall₂ (fun s t => scrubScenarioRisk s = scrubScenarioRisk t) l1 l2) :
    List.Forall₂ (fun s t => scrubScenarioRisk s = scrubScenarioRisk t)
      (l1.filter fun s => decide (s.confidence ≠ Confidence.LOW))
      (l2.filter fun s => decide (s.confidence ≠ Confidence.LOW)) := by
  induction h with
  | nil => exact List.Forall₂.nil
  | cons hab hrest ih =>
    rename_i a b t1 t2
    have hc := scrub_eq_confidence hab
    by_cases hb : b.confidence = Confidence.LOW
    · rw [List.filter_cons_of_neg (by simp [hc, hb]), List.filter_cons_of_neg (by simp [hb])]
      exact ih
    · rw [List.filter_cons_of_pos (by simp [hc, hb]), List.filter_cons_of_pos (by simp [hb])]
      exact List.Forall₂.cons hab ih

lemma reduceBest_scrub_rel {l1 l2 : List ScenarioResult}
    (h : List.Forall₂ (fun s t => scrubScenarioRisk s = scrubScenarioRisk t) l1 l2) :
    ∀ {b1 b2 : ScenarioResult}, scrubScenarioRisk b1 = scrubScenarioRisk b2 →
      scrubScenarioRisk (reduceBest b1 l1) = scrubScenarioRisk (reduceBest b2 l2) := by
  induction h with
  | nil => intro b1 b2 hb; exact hb
  | cons hab hrest ih =>
    intro b1 b2 hb
    rename_i a b t1 t2
    have hstep : scrubScenarioRisk (if a.net_profit > b1.net_profit then a else b1)
        = scrubScenarioRisk (if b.net_profit > b2.net_profit then b else b2) := by
      rw [scrub_eq_net_profit hab, scrub_eq_net_profit hb]
      by_cases hcond : b.net_profit > b2.net_profit
      · rw [if_pos hcond, if_pos hcond]; exact hab
      · rw [if_neg hcond, if_neg hcond]; exact hb
    simpa [reduceBest, List.foldl_cons] using ih hstep

lemma map_scrub_eq {l1 l2 : List ScenarioResult}
    (h : List.Forall₂ (fun s t => scrubScenarioRisk s = scrubScenarioRisk t) l1 l2) :
    l1.map scrubScenarioRisk = l2.map scrubScenarioRisk := by
  induction h with
  | nil => rfl
  | cons hab hrest ih => simp [hab, ih]

lemma recommendedOf_scrub_rel {l1 l2 : List ScenarioResult}
    (h : List.Forall₂ (fun s t => scrubScenarioRisk s = scrubScenarioRisk t) l1 l2) :
    (recommendedOf l1 = none ∧ recommendedOf l2 = none)
    ∨ ∃ r1 r2, recommendedOf l1 = some r1 ∧ recommendedOf l2 = some r2
        ∧ scrubScenarioRisk r1 = scrubScenarioRisk r2 := by
  have hf := filter_scrub_rel h
  rcases hA : l1.filter (fun s => decide (s.confidence ≠ Confidence.LOW)) with _ | ⟨b1, t1⟩ <;>
    rcases hB : l2.filter (fun s => decide (s.confidence ≠ Confidence.LOW)) with _ | ⟨b2, t2⟩ <;>
    rw [hA, hB] at hf
  · left
    refine ⟨?_, ?_⟩
    · unfold recommendedOf
      rw [hA]
    · unfold recommendedOf
      rw [hB]
  · exact absurd hf (by intro hc; cases hc)
  · exact absurd hf (by intro hc; cases hc)
  · right
    cases hf with
    | cons hb ht =>
      refine ⟨reduceBest b1 t1, reduceBest b2 t2, ?_, ?_, reduceBest_scrub_rel ht hb⟩
      · unfold recommendedOf; rw [hA]
      · unfold recommendedOf; rw [hB]

lemma planScenarios_scrub_rel (crop : String) (qty price : ℚ) (wpi7 wpi14 : WPIPrediction)
    (w1 w2 : WeatherRisk) :
    List.Forall₂ (fun s t => scrubScenarioRisk s = scrubScenarioRisk t)
      (planScenarios crop qty price wpi7 wpi14 w1)
      (planScenarios crop qty price wpi7 wpi14 w2) := by
  unfold planScenarios
  refine List.Forall₂.cons rfl (List.Forall₂.cons ?_ (List.Forall₂.cons ?_ List.Forall₂.nil))
  · simp [scrubScenarioRisk, scenarioWait7]
  · simp [scrubScenarioRisk, scenarioWait14]

/-- C8: two planning calls that differ only in the weather-risk input
produce results that are identical after erasing the risk texts and the
weather_forecast description — so every numeric field of every scenario and
the recommended action coincide; the weather risk only shapes the risk
annotations of the waiting scenarios, and the wait-14 risk text appends
" + longer market uncertainty" to the weather-risk phrase. -/
theorem weather_noninterference (crop : String) (qty price : ℚ) (hist : List ℚ)
    (w1 w2 : WeatherRisk) :
    scrubPlan (analyzeProfitScenarios crop qty price hist w1)
      = scrubPlan (analyzeProfitScenarios crop qty price hist w2)
    ∧ ∀ res, analyzeProfitScenarios crop qty price hist w1 = .ok res →
        ∃ s0 s7 s14, res.scenarios = [s0, s7, s14]
          ∧ s0.risk = "None"
          ∧ s7.risk = (if w1.riskLevel = RiskLevel.LOW then "Low weather risk"
              else w1.riskLevel.str ++ " weather risk")
          ∧ s14.risk = w1.riskLevel.str ++ " weather risk + longer market uncertainty" := by
  constructor
  · rcases hp7 : predictWPIIndex hist 7 with e | wpi7
    · simp only [analyzeProfitScenarios, hp7]
    · rcases hp14 : predictWPIIndex hist 14 with e | wpi14
      · simp only [analyzeProfitScenarios, hp7, hp14]
      · have hrel := planScenarios_scrub_rel crop qty price wpi7 wpi14 w1 w2
        rcases recommendedOf_scrub_rel hrel with ⟨hn1, hn2⟩ | ⟨r1, r2, h1, h2, hr⟩
        · simp only [analyzeProfitScenarios, hp7, hp14, hn1, hn2]
        · simp only [analyzeProfitScenarios, hp7, hp14, h1, h2, scrubPlan]
          simp [map_scrub_eq hrel, scrub_eq_action hr]
  · intro res heq
    obtain ⟨wpi7, wpi14, hp7, hp14, hres⟩ :=
      analyzeProfitScenarios_ok_elim crop qty price hist w1 res heq
    subst hres
    exact ⟨_, _, _, rfl, rfl, rfl, rfl⟩

/-- Evaluation of C8 at a concrete planning call. -/
theorem weather_noninterference_witness :
    ∃ res, analyzeProfitScenarios ("wheat") 10 3200 histFlat w0 = .ok res
      ∧ ∃ s0 s7 s14, res.scenarios = [s0, s7, s14]
          ∧ s0.risk = "None"
          ∧ s7.risk = (if w0.riskLevel = RiskLevel.LOW then "Low weather risk"
              else w0.riskLevel.str ++ " weather risk")
          ∧ s14.risk = w0.riskLevel.str ++ " weather risk + longer market uncertainty" := by
  have hok := analyzeProfitScenarios_ok_intro ("wheat") 10 3200 histFlat w0 predFlat predFlat
    predictWPIIndex_histFlat predictWPIIndex_histFlat14
  exact ⟨_, hok,
    (weather_noninterference ("wheat") 10 3200 histFlat w0 w0).2 _ hok⟩

/-- Unfolding of `getPriceTrend` on a found mandi and a nonempty series. -/
lemma getPriceTrend_cons (cropName mandiId name : String) (p : ℚ) (more : List ℚ) :
    getPriceTrend cropName mandiId (some name) (p :: more)
      = some { mandi_id := mandiId
               mandi_name := name
               crop_name := cropName
               prices_7day := p :: more
               first_price := p
               last_price := (p :: more).getLast (List.cons_ne_nil _ _)
               change_percent :=
                 round2 (((p :: more).getLast (List.cons_ne_nil _ _) - p) / p * 100)
               direction :=
                 if |((p :: more).getLast (List.cons_ne_nil _ _) - p) / p * 100| < 1 then
                   .STABLE
                 else if ((p :: more).getLast (List.cons_ne_nil _ _) - p) / p * 100 > 0 then
                   .RISING
                 else .FALLING
               recommendation :=
                 if (if |((p :: more).getLast (List.cons_ne_nil _ _) - p) / p * 100| < 1 then
                       Direction.STABLE
                     else if ((p :: more).getLast (List.cons_ne_nil _ _) - p) / p * 100 > 0 then
                       Direction.RISING
                     else Direction.FALLING) = Direction.STABLE then
                   "Prices stable at " ++ name ++ " ("
                     ++ toFixed1 |((p :: more).getLast (List.cons_ne_nil _ _) - p) / p * 100|
                     ++ "% change). No urgency to sell."
                 else if (if |((p :: more).getLast (List.cons_ne_nil _ _) - p) / p * 100| < 1 then
                       Direction.STABLE
                     else if ((p :: more).getLast (List.cons_ne_nil _ _) - p) / p * 100 > 0 then
                       Direction.RISING
                     else Direction.FALLING) = Direction.RISING then
                   "Prices rising at " ++ name ++ " (+"
                     ++ toFixed1 (((p :: more).getLast (List.cons_ne_nil _ _) - p) / p * 100)
                     ++ "%). Consider waiting 2-3 days for better rates."
                 else
                   "Prices falling at " ++ name ++ " ("
                     ++ toFixed1 (((p :: more).getLast (List.cons_ne_nil _ _) - p) / p * 100)
                     ++ "%). Sell immediately to avoid further loss." } := rfl

/-- C4: for every found mandi and nonempty history, percent change is
(last − first)/first × 100 (reported rounded to 2 decimals); the direction is
STABLE inside the 1% band, RISING for a change of at least +1, FALLING for at
most −1; the recommendation is the per-direction template containing the
percent change rendered with toFixed(1); and the example history
[3900,…,4200] classifies as +7.69% RISING. -/
theorem trend_classification :
    (∀ (cropName mandiId name : String) (prices : List ℚ) (res : PriceTrend),
      getPriceTrend cropName mandiId (some name) prices = some res →
      ∃ first last, prices.head? = some first ∧ prices.getLast? = some last
        ∧ res.change_percent = round2 ((last - first) / first * 100)
        ∧ (|(last - first) / first * 100| < 1 → res.direction = Direction.STABLE)
        ∧ (1 ≤ (last - first) / first * 100 → res.direction = Direction.RISING)
        ∧ ((last - first) / first * 100 ≤ -1 → res.direction = Direction.FALLING)
        ∧ (res.direction = Direction.STABLE →
            res.recommendation = "Prices stable at " ++ name ++ " ("
              ++ toFixed1 |(last - first) / first * 100| ++ "% change). No urgency to sell.")
        ∧ (res.direction = Direction.RISING →
            res.recommendation = "Prices rising at " ++ name ++ " (+"
              ++ toFixed1 ((last - first) / first * 100)
              ++ "%). Consider waiting 2-3 days for better rates.")
        ∧ (res.direction = Direction.FALLING →
            res.recommendation = "Prices falling at " ++ name ++ " ("
              ++ toFixed1 ((last - first) / first * 100)
              ++ "%). Sell immediately to avoid further loss."))
    ∧ (∃ res, getPriceTrend ("wheat") ("M001") (some ("Hubli"))
          [3900, 3950, 4000, 4050, 4100, 4150, 4200] = some res
        ∧ res.change_percent = 769 / 100 ∧ res.direction = Direction.RISING) := by
  constructor
  · intro cropName mandiId name prices res heq
    match prices with
    | [] => exact absurd heq (by simp [getPriceTrend])
    | p :: more =>
      rw [getPriceTrend_cons] at heq
      simp only [Option.some.injEq] at heq
      subst heq
      set last := (p :: more).getLast (List.cons_ne_nil _ _) with hlast
      refine ⟨p, last, rfl, ?_, rfl, ?_, ?_, ?_, ?_, ?_, ?_⟩
      · rw [List.getLast?_eq_getLast _ (List.cons_ne_nil _ _)]
      · intro h
        simp only [if_pos h]
      · intro h
        have h1 : ¬ |(last - p) / p * 100| < 1 := by
          rw [not_lt, le_abs]
          exact Or.inl h
        have h2 : (last - p) / p * 100 > 0 := by linarith
        simp only [if_neg h1, if_pos h2]
      · intro h
        have h1 : ¬ |(last - p) / p * 100| < 1 := by
          rw [not_lt, le_abs]
          right
          linarith
        have h2 : ¬ (last - p) / p * 100 > 0 := by linarith
        simp only [if_neg h1, if_neg h2]
      · intro hd
        have hd' : (if |(last - p) / p * 100| < 1 then Direction.STABLE
            else if (last - p) / p * 100 > 0 then Direction.RISING
            else Direction.FALLING) = Direction.STABLE := hd
        rw [hd']
        simp
      · intro hd
        have hd' : (if |(last - p) / p * 100| < 1 then Direction.STABLE
            else if (last - p) / p * 100 > 0 then Direction.RISING
            else Direction.FALLING) = Direction.RISING := hd
        rw [hd']
        simp
      · intro hd
        have hd' : (if |(last - p) / p * 100| < 1 then Direction.STABLE
            else if (last - p) / p * 100 > 0 then Direction.RISING
            else Direction.FALLING) = Direction.FALLING := hd
        rw [hd']
        simp
  · refine ⟨_, getPriceTrend_cons ("wheat") ("M001") ("Hubli") 3900
      [3950, 4000, 4050, 4100, 4150, 4200], ?_, ?_⟩
    · show round2 ((4200 - 3900 : ℚ) / 3900 * 100) = 769 / 100
      norm_num [round2, jsRound]
    · show (if |((4200 : ℚ) - 3900) / 3900 * 100| < 1 then Direction.STABLE
        else if ((4200 : ℚ) - 3900) / 3900 * 100 > 0 then Direction.RISING
        else Direction.FALLING) = Direction.RISING
      have habs : |((4200 : ℚ) - 3900) / 3900 * 100| = 100 / 13 := by
        rw [abs_of_pos] <;> norm_num
      rw [habs]
      norm_num

/-! ### Stable descending sort lemmas -/

lemma mem_insertDescBy {α : Type} (key : α → ℚ) (x : α) (l : List α) (a : α) :
    a ∈ insertDescBy key x l ↔ a = x ∨ a ∈ l := by
  induction l with
  | nil => simp [insertDescBy]
  | cons y t ih =>
    rw [insertDescBy]
    by_cases h : key y ≤ key x
    · rw [if_pos h]
      simp [List.mem_cons]
    · rw [if_neg h]
      simp only [List.mem_cons, ih]
      tauto

lemma pairwise_insertDescBy {α : Type} (key : α → ℚ) (x : α) (l : List α)
    (hl : l.Pairwise (fun a b => key b ≤ key a)) :
    (insertDescBy key x l).Pairwise (fun a b => key b ≤ key a) := by
  induction l with
  | nil => simp [insertDescBy]
  | cons y t ih =>
    rw [insertDescBy]
    rcases List.pairwise_cons.mp hl with ⟨hy, ht⟩
    by_cases h : key y ≤ key x
    · rw [if_pos h]
      refine List.pairwise_cons.mpr ⟨?_, hl⟩
      intro b hb
      rcases List.mem_cons.mp hb with rfl | hb
      · exact h
      · exact le_trans (hy b hb) h
    · rw [if_neg h]
      refine List.pairwise_cons.mpr ⟨?_, ih ht⟩
      intro b hb
      rcases (mem_insertDescBy key x t b).mp hb with rfl | hb
      · exact le_of_not_le h
      · exact hy b hb

lemma sortDescBy_pairwise {α : Type} (key : α → ℚ) (l : List α) :
    (sortDescBy key l).Pairwise (fun a b => key b ≤ key a) := by
  induction l with
  | nil => simp [sortDescBy]
  | cons x t ih =>
    rw [sortDescBy]
    exact pairwise_insertDescBy key x _ ih

lemma mem_sortDescBy {α : Type} (key : α → ℚ) (l : List α) (a : α) :
    a ∈ sortDescBy key l ↔ a ∈ l := by
  induction l with
  | nil => simp [sortDescBy]
  | cons x t ih =>
    rw [sortDescBy, mem_insertDescBy]
    simp [ih]

lemma filter_key_insertDescBy {α : Type} (key : α → ℚ) (x : α) (l : List α) (v : ℚ) :
    (insertDescBy key x l).filter (fun a => decide (key a = v))
      = if key x = v then x :: l.filter (fun a => decide (key a = v))
        else l.filter (fun a => decide (key a = v)) := by
  induction l with
  | nil =>
    by_cases h : key x = v <;> simp [insertDescBy, h]
  | cons y t ih =>
    rw [insertDescBy]
    by_cases h : key y ≤ key x
    · rw [if_pos h]
      by_cases hx : key x = v
      · rw [if_pos hx, List.filter_cons_of_pos (by simp [hx])]
      · rw [if_neg hx, List.filter_cons_of_neg (by simp [hx])]
    · rw [if_neg h]
      have hxy : key x < key y := lt_of_not_le h
      by_cases hy : key y = v
      · rw [List.filter_cons_of_pos (by simp [hy]), ih]
        by_cases hx : key x = v
        · rw [hx] at hxy
          rw [hy] at hxy
          exact absurd hxy (lt_irrefl v)
        · rw [if_neg hx, if_neg hx, List.filter_cons_of_pos (by simp [hy])]
      · rw [List.filter_cons_of_neg (by simp [hy]), ih,
          List.filter_cons_of_neg (by simp [hy])]

/-- Tie stability of the descending sort: for every key value `v`, the
elements at `v` appear in the sorted list exactly as they appear in the
input. -/
lemma filter_key_sortDescBy {α : Type} (key : α → ℚ) (l : List α) (v : ℚ) :
    (sortDescBy key l).filter (fun a => decide (key a = v))
      = l.filter (fun a => decide (key a = v)) := by
  induction l with
  | nil => rfl
  | cons x t ih =>
    rw [sortDescBy, filter_key_insertDescBy]
    by_cases hx : key x = v
    · rw [if_pos hx, ih, List.filter_cons_of_pos (by simp [hx])]
    · rw [if_neg hx, ih, List.filter_cons_of_neg (by simp [hx])]

lemma sortDescBy_head_ge {α : Type} (key : α → ℚ) (l : List α) (first : α) (rest : List α)
    (h : sortDescBy key l = first :: rest) : ∀ x ∈ l, key x ≤ key first := by
  intro x hx
  have hmem : x ∈ first :: rest := by
    rw [← h, mem_sortDescBy]
    exact hx
  have hp := sortDescBy_pairwise key l
  rw [h] at hp
  rcases List.mem_cons.mp hmem with rfl | hx2
  · exact le_refl _
  · exact (List.pairwise_cons.mp hp).1 x hx2

lemma pairwise_le_getLast {α : Type} (key : α → ℚ) :
    ∀ (l : List α) (hne : l ≠ []),
      l.Pairwise (fun a b => key b ≤ key a) → ∀ x ∈ l, key (l.getLast hne) ≤ key x := by
  intro l
  induction l with
  | nil => intro hne; exact absurd rfl hne
  | cons a t ih =>
    intro hne hp x hx
    cases t with
    | nil =>
      rcases List.mem_cons.mp hx with rfl | hx2
      · exact le_refl _
      · exact absurd hx2 (List.not_mem_nil x)
    | cons b t' =>
      have hne' : b :: t' ≠ [] := List.cons_ne_nil _ _
      have hlast : (a :: b :: t').getLast hne = (b :: t').getLast hne' :=
        List.getLast_cons hne'
      rcases List.mem_cons.mp hx with rfl | hx2
      · rw [hlast]
        exact (List.pairwise_cons.mp hp).1 _ (List.getLast_mem hne')
      · rw [hlast]
        exact ih hne' (List.pairwise_cons.mp hp).2 x hx2

/-- Evaluation of C4 at the round-trip example history. -/
theorem trend_classification_witness :
    ∃ res, getPriceTrend ("wheat") ("M001") (some ("Hubli"))
        [3900, 3950, 4000, 4050, 4100, 4150, 4200] = some res
      ∧ ∃ first last,
          ([3900, 3950, 4000, 4050, 4100, 4150, 4200] : List ℚ).head? = some first
          ∧ ([3900, 3950, 4000, 4050, 4100, 4150, 4200] : List ℚ).getLast? = some last
          ∧ res.change_percent = round2 ((last - first) / first * 100) := by
  obtain ⟨first, last, h1, h2, h3, -, -, -, -, -, -⟩ :=
    trend_classification.1 ("wheat") ("M001") ("Hubli")
      [3900, 3950, 4000, 4050, 4100, 4150, 4200] _
      (getPriceTrend_cons ("wheat") ("M001") ("Hubli") 3900
        [3950, 4000, 4050, 4100, 4150, 4200])
  exact ⟨_, getPriceTrend_cons ("wheat") ("M001") ("Hubli") 3900
    [3950, 4000, 4050, 4100, 4150, 4200], first, last, h1, h2, h3⟩

/-! ### `comparePrices` success forms -/

lemma comparePrices_some_elim (config : Option ℚ) (msp : ℚ) (mandis : List MandiPrice)
    (cropName : String) (farmerLat farmerLon : ℚ) (radiusKm : Option ℚ)
    (cosDeg sqrtQ : ℚ → ℚ) (res : ComparePricesResult)
    (heq : comparePrices config (some msp) mandis cropName farmerLat farmerLon radiusKm
      cosDeg sqrtQ = some res) :
    ∃ best rest,
      sortDescBy (fun m => m.net_price)
        ((mandis.map (withDistance (transportRate config) farmerLat farmerLon cosDeg sqrtQ)).filter
          (radiusPred radiusKm)) = best :: rest
      ∧ res.mandis = best :: rest
      ∧ res.best_mandi = best := by
  simp only [comparePrices] at heq
  by_cases h0 : mandis.length = 0
  · rw [if_pos h0] at heq
    exact absurd heq (by simp)
  rw [if_neg h0] at heq
  rcases hs : sortDescBy (fun m => m.net_price)
      ((mandis.map (withDistance (transportRate config) farmerLat farmerLon cosDeg sqrtQ)).filter
        (radiusPred radiusKm)) with _ | ⟨best, rest⟩
  · rw [hs] at heq
    exact absurd heq (by simp)
  · rw [hs] at heq
    simp only [Option.some.injEq] at heq
    exact ⟨best, rest, hs, by rw [← heq], by rw [← heq]⟩

lemma comparePrices_some_intro (config : Option ℚ) (msp : ℚ) (m0 : MandiPrice)
    (ms : List MandiPrice) (cropName : String) (farmerLat farmerLon : ℚ)
    (radiusKm : Option ℚ) (cosDeg sqrtQ : ℚ → ℚ) (best : MandiPriceWithDistance)
    (rest : List MandiPriceWithDistance)
    (hs : sortDescBy (fun m => m.net_price)
        (((m0 :: ms).map
            (withDistance (transportRate config) farmerLat farmerLon cosDeg sqrtQ)).filter
          (radiusPred radiusKm)) = best :: rest) :
    comparePrices config (some msp) (m0 :: ms) cropName farmerLat farmerLon radiusKm cosDeg sqrtQ
      = some { crop := cropName
               farmer_location := (farmerLat, farmerLon)
               radius_km := match radiusKm with
                            | some r => if r = 0 then none else some r
                            | none => none
               mandis := best :: rest
               best_mandi := best
               recommendation :=
                 if best.net_price ≥ msp then
                   "Sell at " ++ best.mandi_name ++ " for best net return of Rs "
                     ++ toString best.net_price ++ "/qtl (after transport cost of Rs "
                     ++ toString best.transport_cost ++ ")."
                 else
                   "Warning: Best net price (Rs " ++ toString best.net_price ++ "/qtl at "
                     ++ best.mandi_name ++ ") is below MSP (Rs " ++ toString msp
                     ++ "/qtl). Consider claiming MSP support through government procurement." } := by
  simp only [comparePrices]
  rw [if_neg (by simp)]
  rw [hs]
  cases radiusKm <;> rfl

/-- C5 (amended): for every successful `comparePrices` call, each listed
market's net_price equals its quote minus distance × rate-per-km **rounded to
2 decimals**; the output is sorted by net_price descending (adjacent pairs
non-increasing); ties keep the input insertion order (the filtered, mapped
input restricted to any fixed net_price value is unchanged by the sort); and
best_mandi is the first element of the sorted list. -/
theorem market_comparison_sorted (config : Option ℚ) (msp : ℚ) (mandis : List MandiPrice)
    (cropName : String) (farmerLat farmerLon : ℚ) (radiusKm : Option ℚ)
    (cosDeg sqrtQ : ℚ → ℚ) (res : ComparePricesResult)
    (heq : comparePrices config (some msp) mandis cropName farmerLat farmerLon radiusKm
      cosDeg sqrtQ = some res) :
    (∀ m ∈ res.mandis, m.net_price
        = round2 (m.current_price
          - sqrtQ (((m.lat - farmerLat) * 111) * ((m.lat - farmerLat) * 111)
              + ((m.lon - farmerLon) * 111 * cosDeg farmerLat)
                * ((m.lon - farmerLon) * 111 * cosDeg farmerLat))
            * transportRate config))
    ∧ res.mandis.Chain' (fun a b => b.net_price ≤ a.net_price)
    ∧ (∀ v : ℚ, res.mandis.filter (fun m : MandiPriceWithDistance => decide (m.net_price = v))
        = List.filter (fun m : MandiPriceWithDistance => decide (m.net_price = v))
            (List.filter (radiusPred radiusKm)
              (mandis.map (withDistance (transportRate config) farmerLat farmerLon
                cosDeg sqrtQ))))
    ∧ ∃ rest, res.mandis = res.best_mandi :: rest := by
  obtain ⟨best, rest, hs, hm, hb⟩ :=
    comparePrices_some_elim config msp mandis cropName farmerLat farmerLon radiusKm
      cosDeg sqrtQ res heq
  refine ⟨?_, ?_, ?_, ⟨rest, by rw [hm, hb]⟩⟩
  · intro m hmem
    rw [hm, ← hs, mem_sortDescBy] at hmem
    have hmap := List.mem_of_mem_filter hmem
    obtain ⟨orig, _, horig⟩ := List.mem_map.mp hmap
    rw [← horig]
    rfl
  · rw [hm, ← hs]
    exact (sortDescBy_pairwise (fun m : MandiPriceWithDistance => m.net_price) _).chain'
  · intro v
    rw [hm, ← hs]
    exact filter_key_sortDescBy (fun m : MandiPriceWithDistance => m.net_price) _ v

/-- The single market row of the C5 counterexample: 101/111000 degrees of
latitude from the farmer, so that the planar distance is 0.101 km. -/
def mandiC5 : MandiPrice :=
  { mandi_id := "MC1"
    mandi_name := "TestMandi"
    district := "TestDistrict"
    lat := 101 / 111000
    lon := 0
    crop_name := "wheat"
    current_price := 100
    msp_price := 2000
    msp_diff := 0
    msp_status := .ABOVE_MSP }

/-- The value `Math.sqrt` returns at the one squared distance that occurs in
the C5 counterexample: `sqrt(0.010201) = 0.101` exactly. -/
def sqrtC5 : ℚ → ℚ := fun q => if q = 10201 / 1000000 then 101 / 1000 else 0

/-- C5 counterexample: with quote 100, distance 0.101 km and rate 12/km the
stored net_price is 98.79 (rounded to 2 decimals), while quote − distance ×
rate is 98.788 — so the claim's exact equality fails. -/
theorem market_net_price_rounding_counterexample :
    ∃ res, comparePrices none (some 2000) [mandiC5] ("wheat") 0 0 none
        (fun _ => 1) sqrtC5 = some res
      ∧ res.best_mandi.net_price = 9879 / 100
      ∧ mandiC5.current_price
          - sqrtC5 (((mandiC5.lat - 0) * 111) * ((mandiC5.lat - 0) * 111)
              + ((mandiC5.lon - 0) * 111 * 1) * ((mandiC5.lon - 0) * 111 * 1))
            * transportRate none = 98788 / 1000
      ∧ (9879 / 100 : ℚ) ≠ 98788 / 1000 := by
  have hs : sortDescBy (fun m => m.net_price)
      (([mandiC5].map (withDistance (transportRate none) 0 0 (fun _ => 1) sqrtC5)).filter
        (radiusPred none))
      = [withDistance (transportRate none) 0 0 (fun _ => 1) sqrtC5 mandiC5] := rfl
  refine ⟨_, comparePrices_some_intro none 2000 mandiC5 [] ("wheat") 0 0 none
    (fun _ => 1) sqrtC5 _ [] hs, ?_, ?_, ?_⟩
  · show (withDistance (transportRate none) 0 0 (fun _ => 1) sqrtC5 mandiC5).net_price
      = 9879 / 100
    norm_num [withDistance, mandiC5, sqrtC5, transportRate, round2, jsRound]
  · norm_num [mandiC5, sqrtC5, transportRate]
  · norm_num

/-- Evaluation of the amended C5 at the counterexample input. -/
theorem market_comparison_sorted_witness :
    ∃ res, comparePrices none (some 2000) [mandiC5] ("wheat") 0 0 none
        (fun _ => 1) sqrtC5 = some res
      ∧ res.mandis.Chain' (fun a b => b.net_price ≤ a.net_price)
      ∧ ∃ rest, res.mandis = res.best_mandi :: rest := by
  have hs : sortDescBy (fun m => m.net_price)
      (([mandiC5].map (withDistance (transportRate none) 0 0 (fun _ => 1) sqrtC5)).filter
        (radiusPred none))
      = [withDistance (transportRate none) 0 0 (fun _ => 1) sqrtC5 mandiC5] := rfl
  have hok := comparePrices_some_intro none 2000 mandiC5 [] ("wheat") 0 0 none
    (fun _ => 1) sqrtC5 _ [] hs
  obtain ⟨-, h2, -, h4⟩ := market_comparison_sorted none 2000 [mandiC5] ("wheat") 0 0 none
    (fun _ => 1) sqrtC5 _ hok
  exact ⟨_, hok, h2, h4⟩

lemma getMandiPrices_some_intro (msp : ℚ) (rows : List MandiPrice) (cropName : String)
    (first : MandiPrice) (rest : List MandiPrice)
    (hs : sortDescBy (fun m : MandiPrice => m.current_price) rows = first :: rest) :
    getMandiPrices (some msp) rows cropName = some
      { crop := cropName
        msp := msp
        mandis := first :: rest
        highest_price := first.current_price
        lowest_price := ((first :: rest).getLast (List.cons_ne_nil _ _)).current_price
        price_spread := first.current_price
          - ((first :: rest).getLast (List.cons_ne_nil _ _)).current_price
        spread_percent := round2 ((first.current_price
            - ((first :: rest).getLast (List.cons_ne_nil _ _)).current_price)
          / ((first :: rest).getLast (List.cons_ne_nil _ _)).current_price * 100) } := by
  simp only [getMandiPrices]
  rw [hs]

/-- C9: every successful `getMandiPrices` call exposes price_spread equal to
the maximum quote minus the minimum quote over the full quote set for the
commodity (the function takes no location or radius input, so no distance
filtering is involved), and spread_percent equal to spread / minimum × 100
rounded to 2 decimals. -/
theorem price_spread_exposure (msp : ℚ) (rows : List MandiPrice) (cropName : String)
    (res : GetMandiPricesResult)
    (heq : getMandiPrices (some msp) rows cropName = some res) :
    res.price_spread = res.highest_price - res.lowest_price
    ∧ (∃ m ∈ rows, m.current_price = res.highest_price)
    ∧ (∀ m ∈ rows, m.current_price ≤ res.highest_price)
    ∧ (∃ m ∈ rows, m.current_price = res.lowest_price)
    ∧ (∀ m ∈ rows, res.lowest_price ≤ m.current_price)
    ∧ res.spread_percent = round2 (res.price_spread / res.lowest_price * 100) := by
  rcases hs : sortDescBy (fun m : MandiPrice => m.current_price) rows with _ | ⟨first, rest⟩
  · simp only [getMandiPrices] at heq
    rw [hs] at heq
    exact absurd heq (by simp)
  · rw [getMandiPrices_some_intro msp rows cropName first rest hs] at heq
    simp only [Option.some.injEq] at heq
    subst heq
    have hpair := sortDescBy_pairwise (fun m : MandiPrice => m.current_price) rows
    rw [hs] at hpair
    have hlastmem : (first :: rest).getLast (List.cons_ne_nil _ _) ∈ first :: rest :=
      List.getLast_mem _
    refine ⟨rfl, ?_, ?_, ?_, ?_, rfl⟩
    · refine ⟨first, ?_, rfl⟩
      rw [← mem_sortDescBy (fun m : MandiPrice => m.current_price) rows, hs]
      exact List.mem_cons_self _ _
    · exact sortDescBy_head_ge (fun m : MandiPrice => m.current_price) rows first rest hs
    · refine ⟨(first :: rest).getLast (List.cons_ne_nil _ _), ?_, rfl⟩
      rw [← mem_sortDescBy (fun m : MandiPrice => m.current_price) rows, hs]
      exact hlastmem
    · intro m hm
      have hm2 : m ∈ first :: rest := by
        rw [← hs, mem_sortDescBy]
        exact hm
      exact pairwise_le_getLast (fun m : MandiPrice => m.current_price)
        (first :: rest) (List.cons_ne_nil _ _) hpair m hm2

/-- A quote row at 2500 for the C9 evaluation. -/
def mandiW1 : MandiPrice :=
  { mandi_id := "MW1"
    mandi_name := "MandiOne"
    district := "D1"
    lat := 0
    lon := 0
    crop_name := "wheat"
    current_price := 2500
    msp_price := 2200
    msp_diff := 300
    msp_status := .ABOVE_MSP }

/-- A quote row at 2420 for the C9 evaluation. -/
def mandiW2 : MandiPrice :=
  { mandi_id := "MW2"
    mandi_name := "MandiTwo"
    district := "D2"
    lat := 0
    lon := 0
    crop_name := "wheat"
    current_price := 2420
    msp_price := 2200
    msp_diff := 220
    msp_status := .ABOVE_MSP }

lemma sortW12 : sortDescBy (fun m : MandiPrice => m.current_price) [mandiW1, mandiW2]
    = [mandiW1, mandiW2] := by
  simp only [sortDescBy, insertDescBy]
  rw [if_pos (by norm_num [mandiW1, mandiW2])]

/-- Evaluation of C9 on two quotes 2500 and 2420: spread 80, 3.31%. -/
theorem price_spread_exposure_witness :
    ∃ res, getMandiPrices (some 2200) [mandiW1, mandiW2] ("wheat") = some res
      ∧ res.price_spread = res.highest_price - res.lowest_price
      ∧ (∀ m ∈ [mandiW1, mandiW2], m.current_price ≤ res.highest_price)
      ∧ res.spread_percent = round2 (res.price_spread / res.lowest_price * 100) := by
  have hok := getMandiPrices_some_intro 2200 [mandiW1, mandiW2] ("wheat") mandiW1 [mandiW2]
    sortW12
  obtain ⟨h1, -, h3, -, -, h6⟩ :=
    price_spread_exposure 2200 [mandiW1, mandiW2] ("wheat") _ hok
  exact ⟨_, hok, h1, h3, h6⟩

/-- C10: the transport rate used by `comparePrices` is 12 when the
`market_config` row is absent, 12 when the configured value is 0 (so a zero
rate is never honoured), and the configured value otherwise; consequently
`comparePrices` behaves identically with an absent row and with a configured
rate of 0, on every input. -/
theorem transport_rate_fallback :
    transportRate none = 12
    ∧ transportRate (some 0) = 12
    ∧ (∀ v : ℚ, v ≠ 0 → transportRate (some v) = v)
    ∧ ∀ (cropMsp : Option ℚ) (mandis : List MandiPrice) (cropName : String)
        (farmerLat farmerLon : ℚ) (radiusKm : Option ℚ) (cosDeg sqrtQ : ℚ → ℚ),
        comparePrices none cropMsp mandis cropName farmerLat farmerLon radiusKm cosDeg sqrtQ
          = comparePrices (some 0) cropMsp mandis cropName farmerLat farmerLon radiusKm
              cosDeg sqrtQ := by
  have h0 : transportRate (some 0) = transportRate none := by
    simp [transportRate]
  refine ⟨rfl, by simp [transportRate], ?_, ?_⟩
  · intro v hv
    simp [transportRate, hv]
  · intro cropMsp mandis cropName farmerLat farmerLon radiusKm cosDeg sqrtQ
    rw [comparePrices.eq_def, comparePrices.eq_def, h0]

/-- Evaluation of C10: a nonzero configured rate (7) is honoured. -/
theorem transport_rate_fallback_witness :
    (7 : ℚ) ≠ 0 ∧ transportRate (some 7) = 7 :=
  ⟨by norm_num, transport_rate_fallback.2.2.1 7 (by norm_num)⟩

end AgriBot
